import Mathlib

/-!
Shallow embedding of `bragginrights.py`, a fantasy-football daily salary-cap
league app: player pool loading from a weekly CSV, lineup construction with
positional slots, salary-cap gated saving to a JSON leaderboard store, and
best-effort score lookup against an external stats API.

Machine integers are modelled as `Int`/`Nat`; decimal projected points as `Rat`;
Python dicts as association lists or option-valued functions; fallible code as
`Except`/branching on an explicit fetch-result value.
-/

set_option maxRecDepth 8000

/-- Salary cap constant (`SALARY_CAP = 60000` in the source). -/
def SALARY_CAP : Int := 60000

/-- The slot-count configuration `LINEUP_SLOTS` (an ordered dict in the source):
QB times 1, RB times 2, WR times 3, TE times 1, FLEX times 1, D times 1. -/
def LINEUP_SLOTS : List (String × Nat) :=
  [("QB", 1), ("RB", 2), ("WR", 3), ("TE", 1), ("FLEX", 1), ("D", 1)]

/-- A normalized player row of the weekly pool, as produced by `load_csv`:
name, position, team, opponent, salary, projected points (fppg). -/
structure Player where
  name : String
  position : String
  team : String
  opponent : String
  salary : Int
  fppg : Rat
deriving DecidableEq

/-- An in-progress lineup: the Python dict mapping slot label to the chosen
player row, modelled as an association list with the labels as keys. -/
abbrev Lineup := List (String × Player)

/-- Dict lookup on a lineup: the player assigned to a slot label, if any. -/
def lookupSlot (l : Lineup) (label : String) : Option Player :=
  (l.find? (fun e => e.1 == label)).map (fun e => e.2)

/-- `total_salary = lineup_df["salary"].sum()`: the sum of the salaries of the
entries present in the lineup dict. -/
def totalSalary (l : Lineup) : Int :=
  (l.map (fun e => e.2.salary)).sum

/-- The slot labels generated by the build loop: for each `(pos, count)` of
`LINEUP_SLOTS` the labels `pos` (when `count = 1`) or `pos ++ toString (i+1)`,
paired with the position the slot pool is drawn from. -/
def slotLabelPairs : List (String × String) :=
  (LINEUP_SLOTS.map (fun pc =>
    (List.range pc.2).map (fun i =>
      (pc.1 ++ (if pc.2 == 1 then "" else toString (i + 1)), pc.1)))).flatten

/-- The nine required slot labels, in build-loop order. -/
def slotLabels : List String := slotLabelPairs.map (fun e => e.1)

/-! ## Slot options (the Build Your Lineup loop) -/

/-- The sidebar filters applied inside the slot loop: selected positions, teams
and opponents (an empty selection means the filter is off).  The salary-range
slider filters only the display table, never the slot pools, and so does not
appear here. -/
structure Filters where
  positions : List String
  teams : List String
  opponents : List String
deriving DecidableEq

/-- No sidebar filters selected. -/
def noFilters : Filters := ⟨[], [], []⟩

/-- `pool[pool[key].isin(sel)]` guarded by Python truthiness of the selection:
an empty selection leaves the pool unchanged. -/
def applyListFilter (sel : List String) (key : Player → String)
    (pool : List Player) : List Player :=
  if sel.isEmpty then pool else pool.filter (fun p => sel.contains (key p))

/-- The slot's base pool with sidebar filters applied: FLEX draws from
RB/WR/TE, every other slot from its exact position; then the position, team
and opponent filters narrow it. -/
def slotPool (pos : String) (df : List Player) (flt : Filters) : List Player :=
  let base := if pos == "FLEX" then
      df.filter (fun p => (["RB", "WR", "TE"] : List String).contains p.position)
    else df.filter (fun p => p.position == pos)
  applyListFilter flt.opponents (fun p => p.opponent)
    (applyListFilter flt.teams (fun p => p.team)
      (applyListFilter flt.positions (fun p => p.position) base))

/-- `needle.toList` starts the character list `haystack`. -/
def startsWithChars : List Char → List Char → Bool
  | [], _ => true
  | _ :: _, [] => false
  | a :: as, b :: bs => a == b && startsWithChars as bs

/-- Occurrence of `needle` somewhere in `haystack` (as character lists). -/
def containsChars (haystack needle : List Char) : Bool :=
  match haystack with
  | [] => needle.isEmpty
  | _ :: t => startsWithChars needle haystack || containsChars t needle

/-- Python's `needle in haystack` on strings: substring containment. -/
def pyInStr (needle haystack : String) : Bool :=
  containsChars haystack.toList needle.toList

/-- `used_players = [p["name"] for p in lineup.values()]` (the guard
`if lineup else []` yields the same empty list on an empty dict). -/
def usedPlayers (lineup : Lineup) : List String :=
  lineup.map (fun e => e.2.name)

/-- `[p for p in used_players if p not in lineup.get(label, {}).get("name", [])]`:
when the slot has an occupant, `.get("name", [])` is the occupant's name
STRING, so `p not in ...` is a substring test; when it is unassigned the
default `[]` keeps every used player in the removal list. -/
def removalList (lineup : Lineup) (label : String) : List String :=
  match lookupSlot lineup label with
  | some q => (usedPlayers lineup).filter (fun p => !(pyInStr p q.name))
  | none => usedPlayers lineup

/-- `pool = pool[~pool["name"].isin(removal list)]`. -/
def excludedPool (lineup : Lineup) (label : String)
    (pool : List Player) : List Player :=
  pool.filter (fun r => !((removalList lineup label).contains r.name))

/-- The dropdown rendering of a player row:
`f"{name} | ${salary} | {fppg} FPPG"`. -/
def optionStr (p : Player) : String :=
  p.name ++ " | $" ++ toString p.salary ++ " | " ++ toString p.fppg ++ " FPPG"

/-- The option list offered by the selectbox of one slot: `"--"` plus the
filtered-and-excluded pool, with the slot's own prior choice appended when the
pool no longer contains it. -/
def slotOptions (label pos : String) (df : List Player) (flt : Filters)
    (lineup : Lineup) : List String :=
  let pool := excludedPool lineup label (slotPool pos df flt)
  let options := "--" :: pool.map optionStr
  let prior := match lookupSlot lineup label with
    | some q => optionStr q
    | none => "--"
  if options.contains prior then options else options ++ [prior]

/-! ## Lineup store (`leaderboard.json`) and the save path -/

/-- The persisted leaderboard: the nested JSON dict keyed by week then by
manager, modelled as an option-valued function. -/
abbrev Leaderboard := String → String → Option Lineup

/-- The empty store (no `leaderboard.json` on disk). -/
def emptyLeaderboard : Leaderboard := fun _ _ => none

/-- `save_lineup(username, lineup_dict, week_key)`: reads the store, sets
`leaderboard[week_key][username] = lineup_dict` (creating the week entry when
absent) and writes it back.  There is no duplicate check: an existing record
for the same key is overwritten. -/
def save_lineup (username : String) (lineup_dict : Lineup) (week_key : String)
    (lb : Leaderboard) : Leaderboard :=
  fun w u => if w = week_key ∧ u = username then some lineup_dict else lb w u

/-- The guard at the top of the build section: `submitted_lineup =
leaderboard.get(week, {}).get(username)`, and the build/save UI renders only
when `if submitted_lineup:` is falsy — that is, when the record is absent or
is an empty dict. -/
def buildPathActive (lb : Leaderboard) (week_key username : String) : Bool :=
  match lb week_key username with
  | some d => d.isEmpty
  | none => true

/-- `save_disabled = total_salary > SALARY_CAP`: the Save Lineup button is
disabled exactly when the lineup is over the cap. -/
def save_disabled (l : Lineup) : Bool :=
  totalSalary l > SALARY_CAP

/-- The lineup display block `if lineup:`: a non-empty in-progress lineup is
shown together with its total salary, with no cap condition. -/
def lineupDisplay (l : Lineup) : Option (Lineup × Int) :=
  if l.isEmpty then none else some (l, totalSalary l)

/-- One render's effect on the store: a save happens exactly when the build
path is active (no prior submission), the local lineup is non-empty, the Save
button is enabled (cap satisfied) and clicked; otherwise the store is
untouched. -/
def renderSave (lb : Leaderboard) (username week_key : String) (l : Lineup)
    (click : Bool) : Leaderboard :=
  if buildPathActive lb week_key username && !l.isEmpty && !save_disabled l
      && click then
    save_lineup username l week_key lb
  else lb

/-- `isComplete` of the spec: every required slot label has an assignment.
The source never checks this on the save path. -/
def isComplete (l : Lineup) : Bool :=
  slotLabels.all (fun s => (lookupSlot l s).isSome)

/-! ## Session state and the Reset Lineup button -/

/-- The session-state key `f"lineup_{username}_{week}"`. -/
def stateKey (username week_key : String) : String :=
  "lineup_" ++ username ++ "_" ++ week_key

/-- The app's mutable state: `st.session_state` (keyed in-progress lineups)
and the persisted leaderboard store. -/
structure AppState where
  session : String → Lineup
  store : Leaderboard

/-- The Reset Lineup button handler: `st.session_state[state_key] = {}`
followed by a rerun.  It assigns the empty dict to the active manager/week's
session key and performs no store access. -/
def resetLineup (st : AppState) (username week_key : String) : AppState :=
  { st with
    session := fun k =>
      if k = stateKey username week_key then [] else st.session k }

/-! ## Score lookup (`get_player_points` and the leaderboard scoring loop) -/

/-- The outcome of the HTTP fetch inside `get_player_points`.  `fail` covers
every raised exception before a parsed body exists: connection errors,
timeouts and JSON decode errors.  `ok status fantasyPoints` is a received
response with its status code and the optional `fantasy_points` field of its
body. -/
inductive FetchResult where
  | fail
  | ok (status : Nat) (fantasyPoints : Option Rat)
deriving DecidableEq

/-- The on-disk points cache `player_stats_cache.json`, keyed by
`f"{player_id}_{season}_{week}"`. -/
abbrev Cache := List (String × Rat)

/-- Dict lookup on an association list with string keys. -/
def lookupAssoc {α : Type} (m : List (String × α)) (k : String) : Option α :=
  (m.find? (fun e => e.1 == k)).map (fun e => e.2)

/-- The cache key `f"{player_id}_{season}_{week}"`. -/
def cacheKey (player_id : String) (season week : Nat) : String :=
  player_id ++ "_" ++ toString season ++ "_" ++ toString week

/-- `get_player_points(player_id, season, week)`: a cache hit returns the
cached value; otherwise the fetch result is converted to points —
`response.raise_for_status()` raises on any status of 400 or more and the bare
`except:` turns every raised error into `0`, while a successful body yields
`response.json().get("fantasy_points", 0)` — and the result is cached. -/
def get_player_points (cache : Cache) (player_id : String) (season week : Nat)
    (fetch : FetchResult) : Rat × Cache :=
  let key := cacheKey player_id season week
  match lookupAssoc cache key with
  | some v => (v, cache)
  | none =>
    let points : Rat :=
      match fetch with
      | .fail => 0
      | .ok status fp => if 400 ≤ status then 0 else fp.getD 0
    (points, (key, points) :: cache)

/-- The scoring loop's per-player lookup: `player_id = mapping.get(name)`,
then `get_player_points(...) if player_id else 0` — a name missing from the
mapping, or mapped to a falsy (empty) identifier, scores `0` without any
fetch. -/
def pointsFor (mapping : List (String × String)) (cache : Cache)
    (playerName : String) (season week : Nat)
    (fetch : FetchResult) : Rat × Cache :=
  match lookupAssoc mapping playerName with
  | some pid =>
    if pid = "" then (0, cache) else get_player_points cache pid season week fetch
  | none => (0, cache)

/-! ## Weekly CSV loading (`load_csv`) -/

/-- ASCII lower-casing of one character, as `str.lower()` does on the
column-header characters that occur in the weekly files. -/
def lowerChar (c : Char) : Char :=
  if 'A' ≤ c ∧ c ≤ 'Z' then Char.ofNat (c.toNat + 32) else c

/-- The whitespace characters stripped by `str.strip()`. -/
def isStripChar (c : Char) : Bool :=
  c == ' ' || c == '\t' || c == '\n' || c == '\r'

/-- `c.strip().lower()` as applied to each raw column header. -/
def normalizeHeader (s : String) : String :=
  String.mk
    ((((s.toList.dropWhile isStripChar).reverse.dropWhile
      isStripChar).reverse).map lowerChar)

/-- The required weekly-file columns, after header normalization. -/
def requiredColumns : List String :=
  ["first name", "last name", "position", "team", "opponent", "salary", "fppg"]

/-- A row of the weekly CSV, carrying the values of the required columns.
A field is meaningful only when its column header is present in the table. -/
structure RawRow where
  firstName : String
  lastName : String
  position : String
  team : String
  opponent : String
  salary : Int
  fppg : Rat
deriving DecidableEq

/-- The weekly CSV as parsed by pandas: its (raw) headers and its rows. -/
structure RawTable where
  headers : List String
  rows : List RawRow
deriving DecidableEq

/-- Failure of `load_csv`: the `KeyError` pandas raises when a required column
is absent — the spec's `MalformedInputError`.  It aborts the render before any
pool exists. -/
inductive LoadError where
  | malformedInput
deriving DecidableEq

deriving instance DecidableEq for Except

/-- The integer nearest `100 * q`, rounding a half to the even neighbour as
numpy rounding does; computed on the numerator and denominator (`q.den > 0`,
and `/` on `Int` floors for a positive divisor). -/
def roundHalfEven100 (q : Rat) : Int :=
  let n : Int := q.num * 100
  let d : Int := (q.den : Int)
  let f : Int := n / d
  let r : Int := n - f * d
  if 2 * r < d then f
  else if d < 2 * r then f + 1
  else if f % 2 = 0 then f else f + 1

/-- `.round(2)`: round to two decimal places. -/
def round2 (q : Rat) : Rat :=
  mkRat (roundHalfEven100 q) 100

/-- The per-row normalization of `load_csv`: derive
`name = first name + " " + last name`, keep position/team/opponent/salary,
replace the exact position value `"DEF"` by `"D"`, round fppg to 2 places. -/
def toPlayer (r : RawRow) : Player :=
  { name := r.firstName ++ " " ++ r.lastName
    position := if r.position = "DEF" then "D" else r.position
    team := r.team
    opponent := r.opponent
    salary := r.salary
    fppg := round2 r.fppg }

/-- `load_csv(file)`: normalize the headers, then derive the name column
(`KeyError` when `first name` or `last name` is absent), then select
`["name", "position", "team", "opponent", "salary", "fppg"]` (`KeyError` when
any of the remaining required columns is absent), then normalize positions and
round fppg.  On failure no pool is produced. -/
def load_csv (t : RawTable) : Except LoadError (List Player) :=
  let hs := t.headers.map normalizeHeader
  if hs.contains "first name" && hs.contains "last name" then
    if (["position", "team", "opponent", "salary", "fppg"] : List String).all
        (fun c => hs.contains c) then
      .ok (t.rows.map toPlayer)
    else .error .malformedInput
  else .error .malformedInput

/-! ## Concrete fixtures -/

/-- A running back whose name strictly extends another player's name. -/
def bobSmithson : Player :=
  { name := "Bob Smithson", position := "RB", team := "DAL", opponent := "NYG"
    salary := 8000, fppg := 10 }

/-- A running back whose name is a proper substring of `bobSmithson`'s. -/
def bobSmith : Player :=
  { name := "Bob Smith", position := "RB", team := "PHI", opponent := "WAS"
    salary := 7000, fppg := 9 }

/-- A two-player weekly pool containing both running backs. -/
def bugPool : List Player := [bobSmithson, bobSmith]

/-- An in-progress lineup with `bobSmithson` at RB1 and `bobSmith` at RB2. -/
def bugLineup : Lineup := [("RB1", bobSmithson), ("RB2", bobSmith)]

/-- A quarterback priced exactly at the salary cap. -/
def qbAtCap : Player :=
  { name := "Cap Exact", position := "QB", team := "AAA", opponent := "BBB"
    salary := 60000, fppg := 20 }

/-- A quarterback priced one unit over the salary cap. -/
def qbOverCap : Player :=
  { name := "Cap Over", position := "QB", team := "AAA", opponent := "BBB"
    salary := 60001, fppg := 20 }

/-- A one-slot lineup whose total salary is exactly 60000. -/
def capLineupAt : Lineup := [("QB", qbAtCap)]

/-- A one-slot lineup whose total salary is 60001. -/
def capLineupOver : Lineup := [("QB", qbOverCap)]

/-- A first submitted lineup for the double-submit scenario. -/
def lineupFirst : Lineup := [("QB", qbAtCap)]

/-- A different second lineup for the double-submit scenario. -/
def lineupSecond : Lineup := [("RB1", bobSmith)]

/-- A well-formed weekly table with one row. -/
def goodTable : RawTable :=
  { headers := ["First Name", "Last Name", "Position", "Team", "Opponent",
      "Salary", "FPPG"]
    rows := [⟨"Bob", "Smith", "DEF", "PHI", "WAS", 4500, mkRat 123 40⟩] }

/-- The same table with the salary column missing. -/
def noSalaryTable : RawTable :=
  { headers := ["First Name", "Last Name", "Position", "Team", "Opponent",
      "FPPG"]
    rows := goodTable.rows }

/-- The contribution of one slot label to a lineup's salary total: the
assigned player's salary, or 0 when the slot is unassigned. -/
def slotSalary (l : Lineup) (s : String) : Int :=
  match lookupSlot l s with
  | some p => p.salary
  | none => 0

/-- A concrete app state with one stored submission and two session keys. -/
def sampleState : AppState :=
  { session := fun k =>
      if k = stateKey "Amos" "2025_week_3" then capLineupAt else lineupSecond
    store := save_lineup "David" lineupFirst "2025_week_3" emptyLeaderboard }

/-! ## Theorems -/

/-- Changing the value of a pointwise-defined summand at a single point `a` of
a duplicate-free index list shifts the mapped sum by the difference at `a`. -/
theorem sum_map_update_point (S : List String) (f g : String → Int)
    (a : String) (ha : a ∈ S) (hS : S.Nodup)
    (hfg : ∀ s, s ≠ a → f s = g s) :
    (S.map f).sum = (S.map g).sum + (f a - g a) := by
  induction S with
  | nil => cases ha
  | cons b S ih =>
    rcases List.mem_cons.mp ha with rfl | ha2
    · have hnotin : a ∉ S := (List.nodup_cons.mp hS).1
      have heq : S.map f = S.map g := List.map_congr_left fun s hs =>
        hfg s (fun h => hnotin (h ▸ hs))
      simp only [List.map_cons, List.sum_cons, heq]
      ring
    · have hb : b ≠ a := fun h => (List.nodup_cons.mp hS).1 (h ▸ ha2)
      simp only [List.map_cons, List.sum_cons, hfg b hb,
        ih ha2 (List.nodup_cons.mp hS).2]
      ring

/-- C1: fails on the code.  With `bobSmithson` assigned to RB1 and `bobSmith`
— whose name is a proper substring of `bobSmithson`'s — assigned to RB2, the
selectbox options computed for slot RB1 still offer `bobSmith`, a player
currently assigned to a different slot: the removal list is built with
Python's `p not in occupant-name` string-containment test, so any used player
whose name is a substring of the slot's own occupant's name escapes
exclusion, contradicting the loop's own comment
`Remove already selected players except current`. -/
theorem c1_cross_slot_offer_bug :
    lookupSlot bugLineup "RB1" = some bobSmithson ∧
    lookupSlot bugLineup "RB2" = some bobSmith ∧
    ("RB1", "RB") ∈ slotLabelPairs ∧ ("RB2", "RB") ∈ slotLabelPairs ∧
    bobSmith.name ≠ bobSmithson.name ∧
    (slotOptions "RB1" "RB" bugPool noFilters bugLineup).contains
      (optionStr bobSmith) = true := by decide

/-- C2 counterexample: the store-level `save_lineup` does not refuse duplicate
writes — a second save for the same (manager, week) overwrites the first
stored lineup, so "the previously stored lineup is unchanged / submission
never overwrites an existing record" is false of the store. -/
theorem c2_store_overwrite_cex :
    save_lineup "David" lineupSecond "2025_week_3"
      (save_lineup "David" lineupFirst "2025_week_3" emptyLeaderboard)
      "2025_week_3" "David" = some lineupSecond ∧
    lineupSecond ≠ lineupFirst := by
  constructor
  · simp [save_lineup]
  · decide

/-- C2 amended: when a non-empty lineup is already stored for
(manager, week), the page render blocks the whole build/save path (the
`submitted_lineup` guard), so no second save can occur through the app and
the stored lineup is unchanged; the store itself, however, raises no conflict
error and would overwrite on a direct call. -/
theorem c2_resubmission_blocked (lb : Leaderboard)
    (username week_key : String) (d : Lineup)
    (hd : lb week_key username = some d) (hne : d ≠ []) :
    ∀ (l : Lineup) (click : Bool),
      renderSave lb username week_key l click = lb ∧
      renderSave lb username week_key l click week_key username = some d := by
  intro l click
  have hact : buildPathActive lb week_key username = false := by
    simp only [buildPathActive, hd]
    exact List.isEmpty_eq_false.mpr hne
  constructor
  · simp [renderSave, hact]
  · simp [renderSave, hact, hd]

/-- Witness for C2's amended theorem at a concrete store holding a prior
submission. -/
theorem c2_resubmission_blocked_witness :
    renderSave (save_lineup "David" lineupFirst "2025_week_3" emptyLeaderboard)
      "David" "2025_week_3" lineupSecond true "2025_week_3" "David" =
      some lineupFirst :=
  (c2_resubmission_blocked
    (save_lineup "David" lineupFirst "2025_week_3" emptyLeaderboard)
    "David" "2025_week_3" lineupFirst (by decide) (by decide)
    lineupSecond true).2

/-- C3: the salary cap is enforced exactly at the save gate: the Save button
is enabled iff the total salary is at most `SALARY_CAP`; a lineup totalling
exactly 60000 saves, one totalling 60001 never reaches the store however the
render goes, yet the over-cap lineup is still held and displayed with its
total while editing. -/
theorem c3_cap_gate :
    (∀ l : Lineup, save_disabled l = false ↔ totalSalary l ≤ SALARY_CAP) ∧
    (totalSalary capLineupAt = 60000 ∧
      renderSave emptyLeaderboard "David" "2025_week_3" capLineupAt true
        "2025_week_3" "David" = some capLineupAt) ∧
    (totalSalary capLineupOver = 60001 ∧
      ∀ (lb : Leaderboard) (username week_key : String) (click : Bool),
        renderSave lb username week_key capLineupOver click = lb) ∧
    lineupDisplay capLineupOver = some (capLineupOver, 60001) := by
  refine ⟨?_, ⟨by decide, by decide⟩, ⟨by decide, ?_⟩, by decide⟩
  · intro l
    simp [save_disabled, not_lt]
  · intro lb username week_key click
    have hdis : save_disabled capLineupOver = true := by decide
    simp [renderSave, hdis]

/-- C4: score lookup fails soft — every failure mode yields 0 rather than
an error: a name absent from the name-to-identifier mapping (no fetch at
all), a network/timeout/decode failure, a non-success HTTP status (the
`raise_for_status` path), and a response body lacking the points field; and
in particular the spec's concrete case, an unknown player under the mapping
`Bob Smith ↦ 999`, scores 0. -/
theorem c4_lookup_fails_soft :
    (∀ (mapping : List (String × String)) (cache : Cache)
      (playerName : String) (season week : Nat) (fetch : FetchResult),
      lookupAssoc mapping playerName = none →
        (pointsFor mapping cache playerName season week fetch).1 = 0) ∧
    (∀ (cache : Cache) (pid : String) (season week : Nat),
      lookupAssoc cache (cacheKey pid season week) = none →
        (get_player_points cache pid season week .fail).1 = 0) ∧
    (∀ (cache : Cache) (pid : String) (season week status : Nat)
      (fp : Option Rat),
      lookupAssoc cache (cacheKey pid season week) = none → 400 ≤ status →
        (get_player_points cache pid season week (.ok status fp)).1 = 0) ∧
    (∀ (cache : Cache) (pid : String) (season week status : Nat),
      lookupAssoc cache (cacheKey pid season week) = none →
        (get_player_points cache pid season week (.ok status none)).1 = 0) ∧
    (∀ (season week : Nat) (fetch : FetchResult),
      (pointsFor [("Bob Smith", "999")] [] "Unknown Player" season week
        fetch).1 = 0) := by
  refine ⟨?_, ?_, ?_, ?_, ?_⟩
  · intro mapping cache playerName season week fetch h
    simp [pointsFor, h]
  · intro cache pid season week h
    simp [get_player_points, h]
  · intro cache pid season week status fp h h400
    simp [get_player_points, h, h400]
  · intro cache pid season week status h
    simp [get_player_points, h]
  · intro season week fetch
    have h : lookupAssoc [("Bob Smith", "999")] "Unknown Player" = none := by
      decide
    simp [pointsFor, h]

/-- Witness for C4 at concrete caches, identifiers and fetch outcomes. -/
theorem c4_lookup_fails_soft_witness :
    (pointsFor [] [] "Nomap Player" 2025 3 .fail).1 = 0 ∧
    (get_player_points [] "999" 2025 3 .fail).1 = 0 ∧
    (get_player_points [] "999" 2025 3 (.ok 404 (some 5))).1 = 0 ∧
    (get_player_points [] "999" 2025 3 (.ok 200 none)).1 = 0 ∧
    (pointsFor [("Bob Smith", "999")] [] "Unknown Player" 2025 3 .fail).1
      = 0 :=
  ⟨c4_lookup_fails_soft.1 [] [] "Nomap Player" 2025 3 .fail (by decide),
   c4_lookup_fails_soft.2.1 [] "999" 2025 3 (by decide),
   c4_lookup_fails_soft.2.2.1 [] "999" 2025 3 404 (some 5) (by decide)
     (by decide),
   c4_lookup_fails_soft.2.2.2.1 [] "999" 2025 3 200 (by decide),
   c4_lookup_fails_soft.2.2.2.2 2025 3 .fail⟩

/-- C5: loading a weekly table that lacks any of the seven required columns
(after case/whitespace header normalization) fails with the malformed-input
error, and the `Except` result then carries no player pool at all. -/
theorem c5_missing_column_fails :
    ∀ t : RawTable,
      (∃ c ∈ requiredColumns,
        (t.headers.map normalizeHeader).contains c = false) →
      load_csv t = .error .malformedInput := by
  intro t h
  obtain ⟨c, hc, hnc⟩ := h
  simp only [load_csv]
  fin_cases hc <;>
    simp_all [List.all_cons, List.all_nil]

/-- Witness for C5 at a table missing its salary column. -/
theorem c5_missing_column_fails_witness :
    load_csv noSalaryTable = .error .malformedInput :=
  c5_missing_column_fails noSalaryTable ⟨"salary", by decide, by decide⟩

/-- C6: the displayed total salary of a lineup is the sum of the salaries of
the players actually assigned, and every unassigned slot contributes exactly
0: summed slot-by-slot over the nine required labels, with 0 for an empty
slot, the total agrees with `totalSalary`. -/
theorem c6_total_is_assigned_sum :
    ∀ l : Lineup, (l.map (fun e => e.1)).Nodup →
      (∀ e ∈ l, e.1 ∈ slotLabels) →
      totalSalary l = (slotLabels.map (slotSalary l)).sum := by
  intro l
  induction l with
  | nil => intro _ _; decide
  | cons e l ih =>
    intro hnd hin
    have hnd2 : e.1 ∉ l.map (fun e => e.1) ∧
        (l.map (fun e => e.1)).Nodup := by
      rw [List.map_cons] at hnd
      exact List.nodup_cons.mp hnd
    have hnd' := hnd2.2
    have hkey := hnd2.1
    have hin' : ∀ x ∈ l, x.1 ∈ slotLabels := fun x hx =>
      hin x (List.mem_cons_of_mem e hx)
    have hmem : e.1 ∈ slotLabels := hin e (List.mem_cons_self e l)
    have hz : slotSalary l e.1 = 0 := by
      have : lookupSlot l e.1 = none := by
        rw [lookupSlot]
        rw [List.find?_eq_none.mpr]
        · rfl
        · intro x hx hbeq
          exact hkey (by
            have hx1 : x.1 = e.1 := by simpa using hbeq
            exact hx1 ▸ List.mem_map_of_mem (fun e => e.1) hx)
      simp [slotSalary, this]
    have hpt : ∀ s, s ≠ e.1 →
        slotSalary (e :: l) s = slotSalary l s := by
      intro s hs
      simp only [slotSalary, lookupSlot, List.find?_cons]
      have : (e.1 == s) = false := by
        simp [Ne.symm hs]
      simp [this]
    have hhead : slotSalary (e :: l) e.1 = e.2.salary := by
      simp [slotSalary, lookupSlot, List.find?_cons]
    have hstep := sum_map_update_point slotLabels
      (slotSalary (e :: l)) (slotSalary l) e.1 hmem (by decide) hpt
    rw [hstep, hhead, hz, ← ih hnd' hin']
    simp [totalSalary]
    ring

/-- Witness for C6 at a concrete two-slot lineup. -/
theorem c6_total_is_assigned_sum_witness :
    totalSalary bugLineup = (slotLabels.map (slotSalary bugLineup)).sum :=
  c6_total_is_assigned_sum bugLineup (by decide) (by decide)

/-- C7: completeness is not required to save: any lineup — in particular one
in which not every required slot is assigned — reaches the store when it is
non-empty, within the cap, the build path is active and Save is clicked;
no completeness condition appears anywhere on the save path. -/
theorem c7_incomplete_can_save :
    ∀ (lb : Leaderboard) (username week_key : String) (l : Lineup),
      isComplete l = false → buildPathActive lb week_key username = true →
      l.isEmpty = false → save_disabled l = false →
      renderSave lb username week_key l true week_key username = some l := by
  intro lb username week_key l hinc hact hne hcap
  simp [renderSave, hact, hne, hcap, save_lineup]

/-- Witness for C7: an incomplete one-slot lineup under the cap is saved. -/
theorem c7_incomplete_can_save_witness :
    isComplete capLineupAt = false ∧
    renderSave emptyLeaderboard "Amos" "2025_week_3" capLineupAt true
      "2025_week_3" "Amos" = some capLineupAt :=
  ⟨by decide,
   c7_incomplete_can_save emptyLeaderboard "Amos" "2025_week_3" capLineupAt
     (by decide) (by decide) (by decide) (by decide)⟩

/-- C8: `load_csv` produces exactly the per-row normalization: each produced
player's name is first name, a space, last name; the position value `DEF` is
replaced by `D` (all other positions kept); and the projected points are
rounded to 2 decimal places — `round2` always yields an integer number of
hundredths. -/
theorem c8_pool_normalization :
    (∀ (t : RawTable) (ps : List Player),
      load_csv t = .ok ps → ps = t.rows.map toPlayer) ∧
    (∀ r : RawRow,
      (toPlayer r).name = r.firstName ++ " " ++ r.lastName ∧
      (toPlayer r).position =
        (if r.position = "DEF" then "D" else r.position) ∧
      (toPlayer r).fppg = round2 r.fppg) ∧
    (∀ q : Rat, ∃ k : Int, round2 q = (k : Rat) / 100) := by
  refine ⟨?_, ?_, ?_⟩
  · intro t ps h
    simp only [load_csv] at h
    split_ifs at h
    simp_all
  · intro r
    exact ⟨rfl, rfl, rfl⟩
  · intro q
    refine ⟨roundHalfEven100 q, ?_⟩
    rw [round2, Rat.mkRat_eq_divInt, Rat.divInt_eq_div]
    norm_num

/-- Witness for C8 at a concrete one-row table: the DEF row becomes a
player named from first and last name, at position D, with fppg 3.075
rounded to 3.08. -/
theorem c8_pool_normalization_witness :
    ([⟨"Bob Smith", "D", "PHI", "WAS", 4500, mkRat 308 100⟩] : List Player)
      = goodTable.rows.map toPlayer :=
  c8_pool_normalization.1 goodTable
    [⟨"Bob Smith", "D", "PHI", "WAS", 4500, mkRat 308 100⟩] (by decide)

/-- C9: the Reset Lineup button only clears the local unsaved editing state:
the active manager/week's session entry becomes empty, every other session
entry is untouched, and the persisted store is exactly what it was. -/
theorem c9_reset_only_clears_session :
    ∀ (st : AppState) (username week_key : String),
      (resetLineup st username week_key).store = st.store ∧
      (resetLineup st username week_key).session (stateKey username week_key)
        = [] ∧
      ∀ k, k ≠ stateKey username week_key →
        (resetLineup st username week_key).session k = st.session k := by
  intro st username week_key
  refine ⟨rfl, by simp [resetLineup], ?_⟩
  intro k hk
  simp [resetLineup, hk]

/-- Witness for C9 at a concrete app state with a stored submission. -/
theorem c9_reset_only_clears_session_witness :
    (resetLineup sampleState "Amos" "2025_week_3").store = sampleState.store ∧
    (resetLineup sampleState "Amos" "2025_week_3").session
      (stateKey "Amos" "2025_week_3") = [] ∧
    (resetLineup sampleState "Amos" "2025_week_3").session "other"
      = sampleState.session "other" :=
  ⟨(c9_reset_only_clears_session sampleState "Amos" "2025_week_3").1,
   (c9_reset_only_clears_session sampleState "Amos" "2025_week_3").2.1,
   (c9_reset_only_clears_session sampleState "Amos" "2025_week_3").2.2
     "other" (by decide)⟩

/-- C10: `save_lineup` writes only its own (week, manager) key: every other
key of the persisted leaderboard holds exactly the lineup it held before the
call. -/
theorem c10_save_preserves_other_entries :
    ∀ (lb : Leaderboard) (username week_key : String) (l : Lineup)
      (w u : String), ¬(w = week_key ∧ u = username) →
      save_lineup username l week_key lb w u = lb w u := by
  intro lb username week_key l w u h
  simp only [save_lineup]
  exact if_neg h

/-- Witness for C10: saving David's week-4 lineup leaves David's stored
week-3 lineup in place. -/
theorem c10_save_preserves_other_entries_witness :
    save_lineup "David" lineupSecond "2025_week_4"
      (save_lineup "David" lineupFirst "2025_week_3" emptyLeaderboard)
      "2025_week_3" "David" = some lineupFirst := by
  rw [c10_save_preserves_other_entries
    (save_lineup "David" lineupFirst "2025_week_3" emptyLeaderboard)
    "David" "2025_week_4" lineupSecond "2025_week_3" "David" (by decide)]
  decide
